import Mathlib

/-!
Verification of the ChatWidget transport and transcript contract
(src/chatwidget/chatwidget.js).

The widget is single-threaded JavaScript: every transcript mutation is a
synchronous block between suspension points, so the embedding models the
widget as a pure state machine.  The network is external: a send takes the
fetch outcome as an input value.  Host-observer invocations are recorded in
a ghost log so that observer-related properties can be stated.
-/

set_option autoImplicit false

namespace ChatWidget

/-- Model of a JavaScript JSON value, as produced by a successful
`res.json()`.  Objects are association lists; bodies produced by
`JSON.parse` have unique keys. -/
inductive JsVal where
  | jnull
  | jbool (b : Bool)
  | jnum (n : Int)
  | jstr (s : String)
  | jarr (elems : List JsVal)
  | jobj (fields : List (String × JsVal))

/-- JavaScript truthiness of a JSON value (used by `if (!j)` and
`else if (j.text)` in the source).  `null`, `false`, `0` and the empty
string are falsy; arrays and objects are always truthy. -/
def JsVal.truthy : JsVal → Bool
  | .jnull => false
  | .jbool b => b
  | .jnum n => n != 0
  | .jstr s => s != ""
  | .jarr _ => true
  | .jobj _ => true

/-- Property access `j.k` on a JSON value: defined field lookup on objects,
`undefined` (here `none`) on everything else. -/
def jsGet (j : JsVal) (k : String) : Option JsVal :=
  match j with
  | .jobj fields => fields.lookup k
  | _ => none

mutual

/-- JavaScript string coercion `String(v)` of a JSON value:
arrays join their elements with commas (null elements become empty),
objects render as the object placeholder string. -/
def jsToString : JsVal → String
  | .jnull => "null"
  | .jbool b => cond b "true" "false"
  | .jnum n => toString n
  | .jstr s => s
  | .jarr xs => jsArrToString xs
  | .jobj _ => "[object Object]"
termination_by structural j => j

/-- Array.prototype.toString: elements joined by commas; a null element
contributes the empty string (JavaScript join semantics). -/
def jsArrToString : List JsVal → String
  | [] => ""
  | [JsVal.jnull] => ""
  | [v] => jsToString v
  | JsVal.jnull :: rest => "," ++ jsArrToString rest
  | v :: rest => jsToString v ++ "," ++ jsArrToString rest
termination_by structural l => l

end

/-- Hexadecimal digit for the low-codepoint escape of JSON.stringify. -/
def hexDigit (n : Nat) : String :=
  if n < 10 then toString n
  else if n = 10 then "a"
  else if n = 11 then "b"
  else if n = 12 then "c"
  else if n = 13 then "d"
  else if n = 14 then "e"
  else "f"

/-- JSON string escaping as performed by JSON.stringify on one character. -/
def escapeJsonChar (c : Char) : String :=
  if c = '"' then "\\\""
  else if c = '\\' then "\\\\"
  else if c = '\n' then "\\n"
  else if c = '\r' then "\\r"
  else if c = '\t' then "\\t"
  else if c.toNat = 8 then "\\b"
  else if c.toNat = 12 then "\\f"
  else if c.toNat < 32 then "\\u00" ++ hexDigit (c.toNat / 16) ++ hexDigit (c.toNat % 16)
  else String.singleton c

/-- JSON string escaping as performed by JSON.stringify. -/
def escapeJson (s : String) : String :=
  String.join (s.data.map escapeJsonChar)

mutual

/-- Compact serialization JSON.stringify(v) (no spacing argument). -/
def jsonStringify : JsVal → String
  | .jnull => "null"
  | .jbool b => cond b "true" "false"
  | .jnum n => toString n
  | .jstr s => "\"" ++ escapeJson s ++ "\""
  | .jarr xs => "[" ++ jsonStringifyList xs ++ "]"
  | .jobj fs => "\x7b" ++ jsonStringifyFields fs ++ "\x7d"
termination_by structural j => j

/-- Comma-separated serialization of an array body. -/
def jsonStringifyList : List JsVal → String
  | [] => ""
  | [v] => jsonStringify v
  | v :: rest => jsonStringify v ++ "," ++ jsonStringifyList rest
termination_by structural l => l

/-- Comma-separated serialization of an object body. -/
def jsonStringifyFields : List (String × JsVal) → String
  | [] => ""
  | [(k, v)] => "\"" ++ escapeJson k ++ "\":" ++ jsonStringify v
  | (k, v) :: rest =>
      "\"" ++ escapeJson k ++ "\":" ++ jsonStringify v ++ "," ++ jsonStringifyFields rest
termination_by structural l => l

end

/-- Reply Resolution Policy of sendMessageToEndpoint (source lines 203-212):
a string field named reply wins; else an array field named replies is mapped
through String coercion; else a truthy field named text is String-coerced;
else the whole body is JSON.stringify-ed. -/
def resolveReplies (j : JsVal) : List String :=
  match jsGet j "reply" with
  | some (JsVal.jstr s) => [s]
  | _ =>
    match jsGet j "replies" with
    | some (JsVal.jarr xs) => xs.map jsToString
    | _ =>
      match jsGet j "text" with
      | some v => if v.truthy then [jsToString v] else [jsonStringify j]
      | none => [jsonStringify j]

/-- Message author, the second argument of the append operation
(class msg user / msg bot in the rendered node). -/
inductive Author where
  | user
  | bot
  deriving DecidableEq

/-- The who string passed to the observer hook for an author. -/
def authorStr : Author → String
  | .user => "user"
  | .bot => "bot"

/-- One child node of the messages container: either a rendered chat
message or the transient typing indicator (class typing, carrying the
Date.now() value stored in its data-typing-id attribute). -/
inductive Entry where
  | msg (who : Author) (text : String)
  | typing (id : Nat)
  deriving DecidableEq

/-- Selector .typing used by the defensive clear in the hide operation. -/
def Entry.isTyping : Entry → Bool
  | .typing _ => true
  | _ => false

/-- Number of typing-indicator nodes currently in the messages container. -/
def countTyping (l : List Entry) : Nat :=
  (l.filter Entry.isTyping).length

/-- Host-supplied onMessageReceived callback.  It receives the argument
object (modelled as its list of key/value pairs) and may throw
(Except.error). -/
def Observer : Type :=
  List (String × String) → Except String Unit

/-- The single-argument object the source passes to the observer:
exactly the keys who, text and sessionId, in that literal order. -/
def observerArg (who text sessionId : String) : List (String × String) :=
  [("who", who), ("text", text), ("sessionId", sessionId)]

/-- State of one widget instance: its configuration that the send path
reads (endpoint, sessionId), the textarea contents, the children of the
messages container, and a ghost log of every argument object the observer
hook was invoked with. -/
structure WidgetState where
  endpoint : String
  sessionId : String
  textareaValue : String
  messages : List Entry
  observerLog : List (List (String × String))
  deriving DecidableEq

/-- Constructor line 43: sessionId is the host-supplied option when that
is truthy, else the generated sess_ string.  A host-supplied empty string
is falsy and is replaced by the generated value. -/
def initSessionId (supplied : Option String) (generated : String) : String :=
  match supplied with
  | none => generated
  | some s => if s = "" then generated else s

/-- Append operation (source lines 143-150): appends the message node,
then, when an observer is configured, invokes it with the
who/text/sessionId object inside try/catch, ignoring any exception.
The invocation itself is recorded in the ghost log. -/
def appendMsg (obs : Option Observer) (st : WidgetState) (text : String) (who : Author) :
    WidgetState :=
  let st1 := { st with messages := st.messages ++ [Entry.msg who text] }
  match obs with
  | none => st1
  | some f =>
    let st2 :=
      { st1 with
          observerLog := st1.observerLog ++ [observerArg (authorStr who) text st.sessionId] }
    match f (observerArg (authorStr who) text st.sessionId) with
    | Except.ok _ => st2
    | Except.error _ => st2

/-- Show operation (source lines 169-174): appends one typing node whose
id is Date.now() (modelled as the now argument) and returns that handle. -/
def showTyping (st : WidgetState) (now : Nat) : WidgetState × Nat :=
  ({ st with messages := st.messages ++ [Entry.typing now] }, now)

/-- Hide operation (source lines 175-178): removes every node matching
the .typing selector; the handle argument is ignored. -/
def hideTyping (st : WidgetState) (dummy : Nat) : WidgetState :=
  { st with messages := st.messages.filter (fun e => !(Entry.isTyping e)) }

/-- Outgoing request body built on source lines 183-187. -/
structure Payload where
  message : String
  sessionId : String
  origin : String
  deriving DecidableEq

/-- Outcome of the fetch call, supplied by the environment: either the
promise rejects (network failure), or a response arrives with an HTTP
status, the text body captured for the error message (none when that
capture itself failed), and the JSON decode of the body (none when
res.json() rejected). -/
inductive FetchResult where
  | netFailure
  | response (status : Nat) (bodyText : Option String) (body : Option JsVal)

/-- Classification of the errors sendMessageToEndpoint can throw. -/
inductive SendError where
  | configError
  | netFailure
  | badStatus (status : Nat) (bodyText : Option String)
  | invalidJson

/-- Transport operation (source lines 181-213): requires a configured
endpoint, builds the payload, performs the exchange, and on a 2xx
response with truthy parsed JSON appends the resolved replies as bot
messages.  Returns the new state, the thrown error if any, and the
request payload if one was sent. -/
def sendMessageToEndpoint (obs : Option Observer) (st : WidgetState) (message origin : String)
    (net : FetchResult) : WidgetState × Except SendError Unit × Option Payload :=
  if st.endpoint = "" then
    (st, Except.error SendError.configError, none)
  else
    let payload : Payload := { message := message, sessionId := st.sessionId, origin := origin }
    match net with
    | FetchResult.netFailure => (st, Except.error SendError.netFailure, some payload)
    | FetchResult.response status bodyText body =>
      if 200 ≤ status ∧ status ≤ 299 then
        match body with
        | none => (st, Except.error SendError.invalidJson, some payload)
        | some j =>
          if j.truthy then
            ((resolveReplies j).foldl (fun s r => appendMsg obs s r Author.bot) st,
             Except.ok (), some payload)
          else
            (st, Except.error SendError.invalidJson, some payload)
      else
        (st, Except.error (SendError.badStatus status bodyText), some payload)

/-- Fixed apology text appended on any send failure (source line 163). -/
def fallbackMessage : String :=
  "Sorry, something went wrong. Please try again later."

/-- Whitespace for String.prototype.trim: the WhiteSpace and
LineTerminator code points of the JavaScript specification. -/
def isJsWhitespace (c : Char) : Bool :=
  [9, 10, 11, 12, 13, 32, 160, 5760, 8192, 8193, 8194, 8195, 8196, 8197,
   8198, 8199, 8200, 8201, 8202, 8232, 8233, 8239, 8287, 12288, 65279].contains c.toNat

/-- JavaScript value.trim(): strips whitespace from both ends. -/
def jsTrim (s : String) : String :=
  String.mk (((s.data.dropWhile isJsWhitespace).reverse.dropWhile isJsWhitespace).reverse)

/-- Send handler (source lines 152-167): trims the textarea value and
returns unchanged when the result is empty; otherwise appends the user
message, clears the textarea, shows the typing indicator, performs the
exchange, appends the fallback message when it threw, and finally hides
the typing indicator.  Also returns the request payload if one was sent. -/
def onSend (obs : Option Observer) (st : WidgetState) (origin : String) (now : Nat)
    (net : FetchResult) : WidgetState × Option Payload :=
  let text := jsTrim st.textareaValue
  if text = "" then (st, none)
  else
    let st1 := appendMsg obs st text Author.user
    let st2 := { st1 with textareaValue := "" }
    let (st3, typingId) := showTyping st2 now
    let (st4, result, req) := sendMessageToEndpoint obs st3 text origin net
    let st5 :=
      match result with
      | Except.ok _ => st4
      | Except.error _ => appendMsg obs st4 fallbackMessage Author.bot
    (hideTyping st5 typingId, req)

/-- One user interaction: the text typed into the textarea before
pressing send, the Date.now() value of that moment, and the fetch
outcome the environment produces for the request. -/
structure SendInput where
  input : String
  now : Nat
  net : FetchResult

/-- Sequential sends, each resolving before the next is issued (the
single-flight discipline of the spec): types each input into the textarea,
runs the send handler, and collects every outgoing payload. -/
def runSends (obs : Option Observer) (origin : String) :
    WidgetState → List SendInput → WidgetState × List Payload
  | st, [] => (st, [])
  | st, i :: rest =>
    let (st1, req) := onSend obs { st with textareaValue := i.input } origin i.now i.net
    let (st2, reqs) := runSends obs origin st1 rest
    (st2, req.toList ++ reqs)

/-- Classification of one exchange, abstracted from the state changes:
the error sendMessageToEndpoint throws, or the truthy parsed body. -/
def sendOutcome (endpoint : String) (net : FetchResult) : Except SendError JsVal :=
  if endpoint = "" then
    Except.error SendError.configError
  else
    match net with
    | FetchResult.netFailure => Except.error SendError.netFailure
    | FetchResult.response status bodyText body =>
      if 200 ≤ status ∧ status ≤ 299 then
        match body with
        | none => Except.error SendError.invalidJson
        | some j =>
          if j.truthy then Except.ok j else Except.error SendError.invalidJson
      else
        Except.error (SendError.badStatus status bodyText)

/-- Bot texts one send appends: the resolved replies on success, the
fixed apology on any failure. -/
def botTexts (endpoint : String) (net : FetchResult) : List String :=
  match sendOutcome endpoint net with
  | Except.ok j => resolveReplies j
  | Except.error _ => [fallbackMessage]

/-- Transcript block one send contributes: nothing for whitespace-only
input, else the trimmed user message followed by the bot messages. -/
def sendTranscript (endpoint : String) (i : SendInput) : List Entry :=
  let text := jsTrim i.input
  if text = "" then []
  else Entry.msg Author.user text :: (botTexts endpoint i.net).map (Entry.msg Author.bot)

/-- Fresh widget state used to instantiate theorems on concrete inputs. -/
def mkState (endpoint sessionId textarea : String) : WidgetState :=
  { endpoint := endpoint, sessionId := sessionId, textareaValue := textarea,
    messages := [], observerLog := [] }

/-- Branch structure of the append operation: in both observer cases the
message node is appended, and the ghost log records the invocation
exactly when an observer is configured. -/
theorem appendMsg_cases (obs : Option Observer) (st : WidgetState) (text : String)
    (who : Author) :
    appendMsg obs st text who =
      match obs with
      | none => { st with messages := st.messages ++ [Entry.msg who text] }
      | some _ =>
        { st with
            messages := st.messages ++ [Entry.msg who text],
            observerLog :=
              st.observerLog ++ [observerArg (authorStr who) text st.sessionId] } := by
  unfold appendMsg
  cases obs with
  | none => rfl
  | some f =>
    dsimp only
    cases f (observerArg (authorStr who) text st.sessionId) <;> rfl

@[simp] theorem appendMsg_messages (obs : Option Observer) (st : WidgetState) (text : String)
    (who : Author) :
    (appendMsg obs st text who).messages = st.messages ++ [Entry.msg who text] := by
  rw [appendMsg_cases]; cases obs <;> rfl

@[simp] theorem appendMsg_endpoint (obs : Option Observer) (st : WidgetState) (text : String)
    (who : Author) :
    (appendMsg obs st text who).endpoint = st.endpoint := by
  rw [appendMsg_cases]; cases obs <;> rfl

@[simp] theorem appendMsg_sessionId (obs : Option Observer) (st : WidgetState) (text : String)
    (who : Author) :
    (appendMsg obs st text who).sessionId = st.sessionId := by
  rw [appendMsg_cases]; cases obs <;> rfl

@[simp] theorem appendMsg_textareaValue (obs : Option Observer) (st : WidgetState)
    (text : String) (who : Author) :
    (appendMsg obs st text who).textareaValue = st.textareaValue := by
  rw [appendMsg_cases]; cases obs <;> rfl

@[simp] theorem appendMsg_observerLog_none (st : WidgetState) (text : String) (who : Author) :
    (appendMsg none st text who).observerLog = st.observerLog := by
  rw [appendMsg_cases]

@[simp] theorem appendMsg_observerLog_some (f : Observer) (st : WidgetState) (text : String)
    (who : Author) :
    (appendMsg (some f) st text who).observerLog
      = st.observerLog ++ [observerArg (authorStr who) text st.sessionId] := by
  rw [appendMsg_cases]

@[simp] theorem isTyping_msg (who : Author) (t : String) :
    Entry.isTyping (Entry.msg who t) = false := rfl

@[simp] theorem isTyping_typing (i : Nat) : Entry.isTyping (Entry.typing i) = true := rfl

@[simp] theorem countTyping_nil : countTyping [] = 0 := rfl

@[simp] theorem countTyping_append (l1 l2 : List Entry) :
    countTyping (l1 ++ l2) = countTyping l1 + countTyping l2 := by
  simp [countTyping]

@[simp] theorem countTyping_cons (e : Entry) (l : List Entry) :
    countTyping (e :: l) = (cond (Entry.isTyping e) 1 0) + countTyping l := by
  cases h : Entry.isTyping e <;> simp [countTyping, List.filter, h, Nat.add_comm]

@[simp] theorem countTyping_map_msg (who : Author) (ts : List String) :
    countTyping (ts.map (Entry.msg who)) = 0 := by
  induction ts <;> simp_all

@[simp] theorem filter_map_msg (who : Author) (ts : List String) :
    (ts.map (Entry.msg who)).filter (fun e => !(Entry.isTyping e)) = ts.map (Entry.msg who) := by
  induction ts <;> simp_all

@[simp] theorem countTyping_filterOut (l : List Entry) :
    countTyping (l.filter (fun e => !(Entry.isTyping e))) = 0 := by
  induction l with
  | nil => rfl
  | cons e rest ih => cases e <;> simp_all [List.filter]

theorem filter_eq_self_of_countTyping (l : List Entry) (h : countTyping l = 0) :
    l.filter (fun e => !(Entry.isTyping e)) = l := by
  rw [List.filter_eq_self]
  intro e he
  simp only [countTyping, List.length_eq_zero, List.filter_eq_nil_iff] at h
  simp [h e he]

theorem foldlAppend_messages (obs : Option Observer) (rs : List String) (st : WidgetState) :
    (rs.foldl (fun s r => appendMsg obs s r Author.bot) st).messages
      = st.messages ++ rs.map (Entry.msg Author.bot) := by
  induction rs generalizing st with
  | nil => simp
  | cons r rest ih => simp [List.foldl, ih]

@[simp] theorem foldlAppend_endpoint (obs : Option Observer) (rs : List String)
    (st : WidgetState) :
    (rs.foldl (fun s r => appendMsg obs s r Author.bot) st).endpoint = st.endpoint := by
  induction rs generalizing st with
  | nil => rfl
  | cons r rest ih => simp [List.foldl, ih]

@[simp] theorem foldlAppend_sessionId (obs : Option Observer) (rs : List String)
    (st : WidgetState) :
    (rs.foldl (fun s r => appendMsg obs s r Author.bot) st).sessionId = st.sessionId := by
  induction rs generalizing st with
  | nil => rfl
  | cons r rest ih => simp [List.foldl, ih]

@[simp] theorem foldlAppend_textareaValue (obs : Option Observer) (rs : List String)
    (st : WidgetState) :
    (rs.foldl (fun s r => appendMsg obs s r Author.bot) st).textareaValue
      = st.textareaValue := by
  induction rs generalizing st with
  | nil => rfl
  | cons r rest ih => simp [List.foldl, ih]

/-- The transport operation rewritten through the outcome classifier. -/
theorem send_eq (obs : Option Observer) (st : WidgetState) (m o : String)
    (net : FetchResult) :
    sendMessageToEndpoint obs st m o net =
      ((match sendOutcome st.endpoint net with
        | Except.ok j => (resolveReplies j).foldl (fun s r => appendMsg obs s r Author.bot) st
        | Except.error _ => st),
       (match sendOutcome st.endpoint net with
        | Except.ok _ => Except.ok ()
        | Except.error e => Except.error e),
       (if st.endpoint = "" then none
        else some { message := m, sessionId := st.sessionId, origin := o })) := by
  unfold sendMessageToEndpoint sendOutcome
  by_cases h : st.endpoint = ""
  · simp [h]
  · simp only [h, if_false]
    cases net with
    | netFailure => rfl
    | response status bodyText body =>
      by_cases hs : 200 ≤ status ∧ status ≤ 299
      · simp only [if_pos hs]
        cases body with
        | none => rfl
        | some j => by_cases ht : j.truthy <;> simp [ht]
      · simp [hs]

theorem onSend_empty (obs : Option Observer) (st : WidgetState) (origin : String) (now : Nat)
    (net : FetchResult) (h : jsTrim st.textareaValue = "") :
    onSend obs st origin now net = (st, none) := by
  simp [onSend, h]

/-- Full characterization of one non-empty send: the resulting transcript,
textarea, configuration fields and outgoing request. -/
theorem onSend_spec (obs : Option Observer) (st : WidgetState) (origin : String) (now : Nat)
    (net : FetchResult) (h : jsTrim st.textareaValue ≠ "") :
    ((onSend obs st origin now net).1).messages
        = st.messages.filter (fun e => !(Entry.isTyping e))
          ++ Entry.msg Author.user (jsTrim st.textareaValue)
            :: (botTexts st.endpoint net).map (Entry.msg Author.bot)
    ∧ ((onSend obs st origin now net).1).textareaValue = ""
    ∧ ((onSend obs st origin now net).1).endpoint = st.endpoint
    ∧ ((onSend obs st origin now net).1).sessionId = st.sessionId
    ∧ (onSend obs st origin now net).2
        = (if st.endpoint = "" then none
           else some { message := jsTrim st.textareaValue, sessionId := st.sessionId,
                       origin := origin }) := by
  unfold onSend
  rw [if_neg h]
  simp only [showTyping, send_eq, hideTyping, botTexts]
  cases hout : sendOutcome st.endpoint net with
  | error e =>
    simp [hout, List.filter_append, foldlAppend_messages, List.filter]
  | ok j =>
    simp [hout, List.filter_append, foldlAppend_messages, List.filter]

theorem onSend_sessionId (obs : Option Observer) (st : WidgetState) (origin : String)
    (now : Nat) (net : FetchResult) :
    ((onSend obs st origin now net).1).sessionId = st.sessionId := by
  by_cases h : jsTrim st.textareaValue = ""
  · rw [onSend_empty obs st origin now net h]
  · exact (onSend_spec obs st origin now net h).2.2.2.1

theorem onSend_payload_sessionId (obs : Option Observer) (st : WidgetState) (origin : String)
    (now : Nat) (net : FetchResult) (p : Payload)
    (h : (onSend obs st origin now net).2 = some p) :
    p.sessionId = st.sessionId := by
  by_cases hne : jsTrim st.textareaValue = ""
  · rw [onSend_empty obs st origin now net hne] at h
    cases h
  · rw [(onSend_spec obs st origin now net hne).2.2.2.2] at h
    by_cases hep : st.endpoint = ""
    · simp [hep] at h
    · rw [if_neg hep] at h
      cases h
      rfl

theorem jsTrim_of_whitespace (s : String) (h : ∀ c ∈ s.data, isJsWhitespace c = true) :
    jsTrim s = "" := by
  unfold jsTrim
  rw [List.dropWhile_eq_nil_iff.mpr h]
  rfl

theorem resolveReplies_noReply (j : JsVal)
    (hr : ∀ s, jsGet j "reply" ≠ some (JsVal.jstr s)) :
    resolveReplies j =
      match jsGet j "replies" with
      | some (JsVal.jarr xs) => xs.map jsToString
      | _ =>
        match jsGet j "text" with
        | some v => if v.truthy then [jsToString v] else [jsonStringify j]
        | none => [jsonStringify j] := by
  unfold resolveReplies
  cases h1 : jsGet j "reply" with
  | none => rfl
  | some v =>
    cases v
    case jstr s => exact absurd h1 (hr s)
    all_goals rfl

theorem resolveReplies_noReplies (j : JsVal)
    (hr : ∀ s, jsGet j "reply" ≠ some (JsVal.jstr s))
    (hrs : ∀ xs, jsGet j "replies" ≠ some (JsVal.jarr xs)) :
    resolveReplies j =
      match jsGet j "text" with
      | some v => if v.truthy then [jsToString v] else [jsonStringify j]
      | none => [jsonStringify j] := by
  rw [resolveReplies_noReply j hr]
  cases h2 : jsGet j "replies" with
  | none => rfl
  | some v =>
    cases v
    case jarr xs => exact absurd h2 (hrs xs)
    all_goals rfl

/-- C1 (amended): exactly one resolution rule applies to a parsed success
body, by fixed precedence: a string field named reply is appended alone;
else an array field named replies is appended element-wise under String
coercion in order (an empty array appends nothing); else a field named
text whose value is truthy is appended under String coercion (the source
tests truthiness of body.text, not presence, so a falsy text value falls
through); else the whole body serialized as compact JSON is appended. -/
theorem C1_replyResolutionPrecedence (j : JsVal) :
    (∀ s, jsGet j "reply" = some (JsVal.jstr s) → resolveReplies j = [s])
    ∧ ((∀ s, jsGet j "reply" ≠ some (JsVal.jstr s)) →
        ∀ xs, jsGet j "replies" = some (JsVal.jarr xs) →
          resolveReplies j = xs.map jsToString)
    ∧ ((∀ s, jsGet j "reply" ≠ some (JsVal.jstr s)) →
        (∀ xs, jsGet j "replies" ≠ some (JsVal.jarr xs)) →
        ∀ v, jsGet j "text" = some v → v.truthy = true →
          resolveReplies j = [jsToString v])
    ∧ ((∀ s, jsGet j "reply" ≠ some (JsVal.jstr s)) →
        (∀ xs, jsGet j "replies" ≠ some (JsVal.jarr xs)) →
        (∀ v, jsGet j "text" = some v → v.truthy = false) →
          resolveReplies j = [jsonStringify j]) := by
  refine ⟨?_, ?_, ?_, ?_⟩
  · intro s hs
    simp [resolveReplies, hs]
  · intro hr xs hxs
    rw [resolveReplies_noReply j hr, hxs]
  · intro hr hrs v hv ht
    rw [resolveReplies_noReplies j hr hrs, hv]
    simp [ht]
  · intro hr hrs hf
    rw [resolveReplies_noReplies j hr hrs]
    cases h3 : jsGet j "text" with
    | none => rfl
    | some v => simp [hf v h3]

/-- Witness for C1: on the body of property P3 rule a wins and exactly
the one message A is appended. -/
theorem C1_witness :
    resolveReplies (JsVal.jobj [("reply", JsVal.jstr "A"),
        ("replies", JsVal.jarr [JsVal.jstr "B"]), ("text", JsVal.jstr "C")]) = ["A"] :=
  (C1_replyResolutionPrecedence (JsVal.jobj [("reply", JsVal.jstr "A"),
    ("replies", JsVal.jarr [JsVal.jstr "B"]), ("text", JsVal.jstr "C")])).1 "A" rfl

/-- Counterexample for C1 as stated: the body with the falsy text field 0
has a field named text, yet the source appends the JSON serialization of
the whole body, not the String coercion of the text value. -/
theorem C1_counterexample :
    resolveReplies (JsVal.jobj [("text", JsVal.jnum 0)]) = ["\x7b\"text\":0\x7d"]
    ∧ resolveReplies (JsVal.jobj [("text", JsVal.jnum 0)]) ≠ [jsToString (JsVal.jnum 0)] := by
  exact ⟨by decide, by decide⟩

/-- C2: a send whose exchange classifies as any error appends exactly the
user entry followed by one fixed apology bot entry and nothing else, the
error never escapes the handler (the handler is a total state function),
and no typing indicator remains afterwards. -/
theorem C2_errorFallback (obs : Option Observer) (st : WidgetState) (origin : String)
    (now : Nat) (net : FetchResult) (err : SendError)
    (hne : jsTrim st.textareaValue ≠ "")
    (herr : sendOutcome st.endpoint net = Except.error err)
    (hty : countTyping st.messages = 0) :
    ((onSend obs st origin now net).1).messages
        = st.messages ++ [Entry.msg Author.user (jsTrim st.textareaValue),
                          Entry.msg Author.bot fallbackMessage]
    ∧ countTyping ((onSend obs st origin now net).1).messages = 0 := by
  have hs := (onSend_spec obs st origin now net hne).1
  rw [filter_eq_self_of_countTyping st.messages hty] at hs
  refine ⟨?_, ?_⟩
  · rw [hs]
    simp [botTexts, herr]
  · rw [hs]
    simp [botTexts, herr, hty]

/-- Witness for C2: a simulated 500 response yields exactly the user
message and the apology, with the typing indicator cleared. -/
theorem C2_witness :
    ((onSend none (mkState "https://api.example/chat" "s0" "hello") "https://host/page" 5
        (FetchResult.response 500 (some "oops") none)).1).messages
      = [Entry.msg Author.user "hello", Entry.msg Author.bot fallbackMessage]
    ∧ countTyping ((onSend none (mkState "https://api.example/chat" "s0" "hello")
        "https://host/page" 5 (FetchResult.response 500 (some "oops") none)).1).messages
      = 0 := by
  have h := C2_errorFallback none (mkState "https://api.example/chat" "s0" "hello")
    "https://host/page" 5 (FetchResult.response 500 (some "oops") none)
    (SendError.badStatus 500 (some "oops")) (by decide) rfl rfl
  exact ⟨h.1, h.2⟩

/-- C3: for any sequence of sequential sends, each resolving before the
next is issued, the final transcript is the initial transcript followed by
the in-order concatenation of each send's user message and its bot replies
or fallback, with nothing else interleaved. -/
theorem C3_sequentialOrdering (obs : Option Observer) (origin : String) (st : WidgetState)
    (inputs : List SendInput) (hty : countTyping st.messages = 0) :
    ((runSends obs origin st inputs).1).messages
      = st.messages ++ (inputs.map (sendTranscript st.endpoint)).flatten := by
  induction inputs generalizing st with
  | nil => simp [runSends]
  | cons i rest ih =>
    have step : (runSends obs origin st (i :: rest)).1
        = (runSends obs origin
            ((onSend obs { st with textareaValue := i.input } origin i.now i.net).1) rest).1 :=
      rfl
    rw [step]
    by_cases hne : jsTrim i.input = ""
    · rw [onSend_empty obs { st with textareaValue := i.input } origin i.now i.net hne]
      rw [ih { st with textareaValue := i.input } hty]
      simp [sendTranscript, hne]
    · have hsp := onSend_spec obs { st with textareaValue := i.input } origin i.now i.net hne
      have hmsg := hsp.1
      dsimp only at hmsg
      rw [filter_eq_self_of_countTyping st.messages hty] at hmsg
      have hty1 : countTyping
          ((onSend obs { st with textareaValue := i.input } origin i.now i.net).1).messages
          = 0 := by
        rw [hmsg]
        simp [hty]
      have hep : ((onSend obs { st with textareaValue := i.input } origin i.now i.net).1).endpoint
          = st.endpoint := hsp.2.2.1
      rw [ih _ hty1, hmsg, hep]
      simp [sendTranscript, hne, List.append_assoc]

/-- Witness for C3: two sequential sends, one successful and one failing,
render in exactly call order. -/
theorem C3_witness :
    ((runSends none "https://host/page" (mkState "https://e" "s0" "")
        [SendInput.mk "hi" 1 (FetchResult.response 200 none
            (some (JsVal.jobj [("reply", JsVal.jstr "yo")]))),
         SendInput.mk "again" 2 (FetchResult.response 500 none none)]).1).messages
      = [Entry.msg Author.user "hi", Entry.msg Author.bot "yo",
         Entry.msg Author.user "again", Entry.msg Author.bot fallbackMessage] := by
  have h := C3_sequentialOrdering none "https://host/page" (mkState "https://e" "s0" "")
    [SendInput.mk "hi" 1 (FetchResult.response 200 none
        (some (JsVal.jobj [("reply", JsVal.jstr "yo")]))),
     SendInput.mk "again" 2 (FetchResult.response 500 none none)] rfl
  exact h.trans (by decide)

/-- C4: under single-flight from a state with no typing indicator, showing
the indicator yields exactly one, appends never change the indicator
count, the hide operation removes every typing entry while ignoring the
handle it is given, and after a send settles the count is zero. -/
theorem C4_typingIndicatorInvariant (obs : Option Observer) (st : WidgetState)
    (origin : String) (now : Nat) (net : FetchResult)
    (hty : countTyping st.messages = 0) :
    countTyping ((showTyping st now).1).messages = 1
    ∧ (∀ st2 : WidgetState, ∀ h1 h2 : Nat, hideTyping st2 h1 = hideTyping st2 h2)
    ∧ (∀ st2 : WidgetState, ∀ h1 : Nat,
        (hideTyping st2 h1).messages = st2.messages.filter (fun e => !(Entry.isTyping e)))
    ∧ (∀ st2 : WidgetState, ∀ h1 : Nat, countTyping (hideTyping st2 h1).messages = 0)
    ∧ (∀ obs2 : Option Observer, ∀ st2 : WidgetState, ∀ t : String, ∀ w : Author,
        countTyping (appendMsg obs2 st2 t w).messages = countTyping st2.messages)
    ∧ countTyping ((onSend obs st origin now net).1).messages = 0 := by
  refine ⟨?_, ?_, ?_, ?_, ?_, ?_⟩
  · simp [showTyping, hty]
  · intro st2 h1 h2
    rfl
  · intro st2 h1
    rfl
  · intro st2 h1
    simp [hideTyping]
  · intro obs2 st2 t w
    simp
  · by_cases hne : jsTrim st.textareaValue = ""
    · rw [onSend_empty obs st origin now net hne]
      exact hty
    · rw [(onSend_spec obs st origin now net hne).1]
      simp

/-- Witness for C4: from a fresh widget, showing the indicator makes the
count one and a settled failing send leaves it at zero. -/
theorem C4_witness :
    countTyping ((showTyping (mkState "e" "s" "x") 7).1).messages = 1
    ∧ countTyping ((onSend none (mkState "e" "s" "x") "o" 7 FetchResult.netFailure).1).messages
      = 0 :=
  ⟨(C4_typingIndicatorInvariant none (mkState "e" "s" "x") "o" 7 FetchResult.netFailure rfl).1,
   (C4_typingIndicatorInvariant none (mkState "e" "s" "x") "o" 7
      FetchResult.netFailure rfl).2.2.2.2.2⟩

/-- C5: a textarea value that is empty or whitespace-only trims to empty,
so the send handler leaves the state untouched (no transcript change, no
typing indicator) and sends no request. -/
theorem C5_emptyInputNoop (obs : Option Observer) (st : WidgetState) (origin : String)
    (now : Nat) (net : FetchResult)
    (h : ∀ c ∈ st.textareaValue.data, isJsWhitespace c = true) :
    onSend obs st origin now net = (st, none) :=
  onSend_empty obs st origin now net (jsTrim_of_whitespace st.textareaValue h)

/-- Witness for C5: a whitespace-only input is a complete no-op. -/
theorem C5_witness :
    onSend none (mkState "https://e" "s0" " \t ") "o" 3 FetchResult.netFailure
      = (mkState "https://e" "s0" " \t ", none) :=
  C5_emptyInputNoop none (mkState "https://e" "s0" " \t ") "o" 3 FetchResult.netFailure
    (by decide)

/-- C6 (amended): every outgoing payload of a widget instance carries that
instance's sessionId across all sends; when the host supplies a non-empty
sessionId at construction the instance uses exactly it, and when none is
supplied the generated identity is used.  (Amendment: a host-supplied
EMPTY-string sessionId is falsy and is replaced by the generated value, so
the as-stated claim fails for it.) -/
theorem C6_sessionStability (obs : Option Observer) (origin : String) (st : WidgetState)
    (inputs : List SendInput) (s generated : String) :
    (∀ p ∈ (runSends obs origin st inputs).2, p.sessionId = st.sessionId)
    ∧ (s ≠ "" → initSessionId (some s) generated = s)
    ∧ initSessionId none generated = generated := by
  refine ⟨?_, ?_, rfl⟩
  · induction inputs generalizing st with
    | nil =>
      intro p hp
      simp [runSends] at hp
    | cons i rest ih =>
      intro p hp
      have step : (runSends obs origin st (i :: rest)).2
          = ((onSend obs { st with textareaValue := i.input } origin i.now i.net).2).toList
            ++ (runSends obs origin
                ((onSend obs { st with textareaValue := i.input } origin i.now i.net).1)
                rest).2 := rfl
      rw [step] at hp
      rcases List.mem_append.mp hp with hp1 | hp2
      · have hreq : (onSend obs { st with textareaValue := i.input } origin i.now i.net).2
            = some p := by
          cases hr : (onSend obs { st with textareaValue := i.input } origin i.now i.net).2 with
          | none =>
            rw [hr] at hp1
            cases hp1
          | some q =>
            rw [hr] at hp1
            simp [Option.toList] at hp1
            rw [hp1]
        exact onSend_payload_sessionId obs { st with textareaValue := i.input } origin i.now
          i.net p hreq
      · exact (ih _ p hp2).trans (onSend_sessionId obs _ origin i.now i.net)
  · intro hs
    simp [initSessionId, hs]

/-- Witness for C6: the payload of a concrete send carries the widget's
sessionId, and a non-empty host-supplied identity is kept. -/
theorem C6_witness :
    (Payload.mk "hi" "s0" "https://host/page").sessionId
      = (mkState "https://e" "s0" "").sessionId
    ∧ initSessionId (some "host-id") "g" = "host-id" :=
  ⟨(C6_sessionStability none "https://host/page" (mkState "https://e" "s0" "")
      [SendInput.mk "hi" 1 (FetchResult.response 200 none
          (some (JsVal.jobj [("reply", JsVal.jstr "yo")])))] "host-id" "g").1
      (Payload.mk "hi" "s0" "https://host/page") (by decide),
   (C6_sessionStability none "https://host/page" (mkState "https://e" "s0" "") [] "host-id"
      "g").2.1 (by decide)⟩

/-- Counterexample for C6 as stated: the host supplies the sessionId empty
string at construction, yet the widget's sessionId is the generated value,
not the supplied one. -/
theorem C6_counterexample :
    initSessionId (some "") "sess_generated" = "sess_generated"
    ∧ "sess_generated" ≠ "" := by
  exact ⟨rfl, by decide⟩

/-- C7: a throwing observer callback is caught and ignored: the append
still completes (it is a total state function), the new entry is present
in the transcript, and nothing changes beyond the message, the recorded
invocation and nothing else. -/
theorem C7_observerIsolation (st : WidgetState) (t : String) (w : Author) (f : Observer)
    (e : String)
    (h : f (observerArg (authorStr w) t st.sessionId) = Except.error e) :
    appendMsg (some f) st t w =
      { st with
          messages := st.messages ++ [Entry.msg w t],
          observerLog := st.observerLog ++ [observerArg (authorStr w) t st.sessionId] } := by
  rw [appendMsg_cases]

/-- Witness for C7: an observer that always throws still lets the append
complete with the entry rendered. -/
theorem C7_witness :
    appendMsg (some (fun _ => Except.error "boom")) (mkState "e" "s0" "") "hi" Author.user
      = { mkState "e" "s0" "" with
            messages := [Entry.msg Author.user "hi"],
            observerLog := [observerArg "user" "hi" "s0"] } :=
  C7_observerIsolation (mkState "e" "s0" "") "hi" Author.user
    (fun _ => Except.error "boom") "boom" rfl

/-- C8 (amended): when an observer is configured, every rendered message
invokes it exactly once with an object whose fields are who, text and
sessionId, carrying the message's author string, the message's text and
the widget's session identity; the object has no field named author. -/
theorem C8_observerPayload (f : Observer) (st : WidgetState) (t : String) (w : Author) :
    (appendMsg (some f) st t w).observerLog
        = st.observerLog ++ [observerArg (authorStr w) t st.sessionId]
    ∧ List.lookup "who" (observerArg (authorStr w) t st.sessionId) = some (authorStr w)
    ∧ List.lookup "text" (observerArg (authorStr w) t st.sessionId) = some t
    ∧ List.lookup "sessionId" (observerArg (authorStr w) t st.sessionId) = some st.sessionId
    ∧ List.lookup "author" (observerArg (authorStr w) t st.sessionId) = none :=
  ⟨appendMsg_observerLog_some f st t w, rfl, rfl, rfl, rfl⟩

/-- Counterexample for C8 as stated: the object passed to the observer on
a concrete append has no field named author; its author information sits
under the key who. -/
theorem C8_counterexample :
    (appendMsg (some (fun _ => Except.ok ())) (mkState "e" "s0" "") "hi"
        Author.user).observerLog
      = [observerArg "user" "hi" "s0"]
    ∧ List.lookup "author" (observerArg "user" "hi" "s0") = none
    ∧ List.lookup "who" (observerArg "user" "hi" "s0") = some "user" := by
  exact ⟨rfl, rfl, rfl⟩

/-- C9: for a non-whitespace input the appended user entry and the
request's message field both carry the trimmed input, and the textarea is
cleared by the send handler. -/
theorem C9_trimmedInput (obs : Option Observer) (st : WidgetState) (origin : String)
    (now : Nat) (net : FetchResult)
    (hne : jsTrim st.textareaValue ≠ "") (hep : st.endpoint ≠ "") :
    ((onSend obs st origin now net).1).textareaValue = ""
    ∧ ((onSend obs st origin now net).1).messages
        = st.messages.filter (fun e => !(Entry.isTyping e))
          ++ Entry.msg Author.user (jsTrim st.textareaValue)
            :: (botTexts st.endpoint net).map (Entry.msg Author.bot)
    ∧ (onSend obs st origin now net).2
        = some { message := jsTrim st.textareaValue, sessionId := st.sessionId,
                 origin := origin } := by
  have hsp := onSend_spec obs st origin now net hne
  refine ⟨hsp.2.1, hsp.1, ?_⟩
  rw [hsp.2.2.2.2, if_neg hep]

/-- Witness for C9: the raw input with surrounding whitespace is trimmed
in both the transcript and the payload, and the textarea is cleared. -/
theorem C9_witness :
    ((onSend none (mkState "https://e" "s0" "  hi  ") "https://host" 4
        FetchResult.netFailure).1).textareaValue = ""
    ∧ (onSend none (mkState "https://e" "s0" "  hi  ") "https://host" 4
        FetchResult.netFailure).2
        = some (Payload.mk "hi" "s0" "https://host") := by
  have h := C9_trimmedInput none (mkState "https://e" "s0" "  hi  ") "https://host" 4
    FetchResult.netFailure (by decide) (by decide)
  exact ⟨h.1, h.2.2⟩

/-- C10: showing or hiding the typing indicator never invokes the
observer: the invocation log changes only through the append operation,
which notifies exactly once per rendered message when configured. -/
theorem C10_typingObserverSilence (st st2 : WidgetState) (now : Nat) (i : Nat) (f : Observer)
    (t : String) (w : Author) :
    ((showTyping st now).1).observerLog = st.observerLog
    ∧ (hideTyping st2 i).observerLog = st2.observerLog
    ∧ (appendMsg (some f) st t w).observerLog
        = st.observerLog ++ [observerArg (authorStr w) t st.sessionId]
    ∧ (appendMsg none st t w).observerLog = st.observerLog :=
  ⟨rfl, rfl, appendMsg_observerLog_some f st t w, appendMsg_observerLog_none st t w⟩

end ChatWidget
